import Mathlib

/-
Verification of the paralympics REST API (src/paralympics/routes.py):
a shallow embedding of the route handlers, their schema layer and the
persistence layer, with theorems about the documented endpoint behavior.

The route handlers are translated from src/paralympics/routes.py.
The data model (models.py) and the schema layer (schemas.py) are not part
of the provided sources; those parts are modelled from the specification
and carry a doc comment saying so.
-/

namespace Paralympics

/-- Modelled from the spec: the Region record (models.py is not under src/).
Primary key NOC (string code); attributes region name and notes
("attributes such as region name and notes").  Fields are Option-valued to
model ORM instances whose columns may be NULL before a commit checks the
constraints. -/
structure Region where
  NOC : Option String
  region : Option String
  notes : Option String
deriving Repr, DecidableEq

/-- Modelled from the spec: the Event record (models.py is not under src/).
Primary key id (integer, generated); attributes include a reference to a
Region by NOC and event details (name). -/
structure Event where
  id : Option Nat
  NOC : Option String
  name : Option String
deriving Repr, DecidableEq

/-- A JSON body sent to a region endpoint: each field is present or absent. -/
structure RegionPayload where
  NOC : Option String
  region : Option String
  notes : Option String
deriving Repr, DecidableEq

/-- A JSON body sent to an event endpoint: each field is present or absent. -/
structure EventPayload where
  NOC : Option String
  name : Option String
deriving Repr, DecidableEq

/-- The exceptions that can cross a handler boundary in routes.py:
marshmallow ValidationError, sqlalchemy NoResultFound, and any other
SQLAlchemyError (IntegrityError, OperationalError, InvalidRequestError,
MultipleResultsFound...).  NoResultFound is itself a SQLAlchemyError
subclass but has its own registered handler, so it is kept separate. -/
inductive ApiError where
  | validationError (messages : List (String × List String))
  | noResultFound (msg : String)
  | sqlalchemyError (msg : String)
deriving Repr, DecidableEq

/-- The JSON response bodies the handlers can produce. -/
inductive Body where
  | message (s : String)
  | regionObj (r : Region)
  | regionList (rs : List Region)
  | eventObj (e : Event)
  | eventList (es : List Event)
  | errorObj (s : String)
  | validationErrors (ms : List (String × List String))
  | internalError
deriving Repr, DecidableEq

structure Response where
  status : Nat
  body : Body
deriving Repr, DecidableEq

/-- The relational store behind db.session.  `failing` models a
persistence-layer outage: when true, every statement execution raises an
OperationalError (a SQLAlchemyError). -/
structure Store where
  regions : List Region
  events : List Event
  failing : Bool
deriving Repr, DecidableEq

inductive Method where
  | PUT
  | PATCH
deriving Repr, DecidableEq

def optStr : Option String → String
  | some s => s
  | none => "None"

/-- Flask error dispatch for an exception escaping a handler, from the two
errorhandler registrations in routes.py: ValidationError responds 400 with
the field-error map, NoResultFound responds 404 with jsonify(error=str(e)),
and any other exception is unhandled and yields Flask's default 500. -/
def dispatchErr : ApiError → Response
  | .validationError ms => { status := 400, body := .validationErrors ms }
  | .noResultFound m => { status := 404, body := .errorObj m }
  | .sqlalchemyError _ => { status := 500, body := .internalError }

/-- db.session.execute(db.select(Region)).scalars() -/
def dbSelectAllRegions (s : Store) : Except ApiError (List Region) :=
  if s.failing then .error (.sqlalchemyError "OperationalError") else .ok s.regions

/-- The rows matching db.select(Region).filter_by(NOC=code). -/
def regionsWithNOC (rs : List Region) (code : String) : List Region :=
  rs.filter (fun x => decide (x.NOC = some code))

/-- db.session.execute(db.select(Region).filter_by(NOC=code)).scalar_one():
exactly one row required; zero rows raises NoResultFound, several raise
MultipleResultsFound. -/
def dbSelectRegionScalarOne (s : Store) (code : String) : Except ApiError Region :=
  if s.failing then .error (.sqlalchemyError "OperationalError")
  else
    match regionsWithNOC s.regions code with
    | [] => .error (.noResultFound "No row was found when one was required")
    | [r] => .ok r
    | _ => .error (.sqlalchemyError "MultipleResultsFound")

/-- scalar_one_or_none(): zero rows tolerated, several still raise. -/
def dbSelectRegionScalarOneOrNone (s : Store) (code : String) :
    Except ApiError (Option Region) :=
  if s.failing then .error (.sqlalchemyError "OperationalError")
  else
    match regionsWithNOC s.regions code with
    | [] => .ok none
    | [r] => .ok (some r)
    | _ => .error (.sqlalchemyError "MultipleResultsFound")

/-- db.session.execute(db.select(Event)).scalars() -/
def dbSelectAllEvents (s : Store) : Except ApiError (List Event) :=
  if s.failing then .error (.sqlalchemyError "OperationalError") else .ok s.events

/-- The rows matching db.select(Event).filter_by(id=event_id). -/
def eventsWithId (es : List Event) (event_id : Nat) : List Event :=
  es.filter (fun x => decide (x.id = some event_id))

/-- db.session.execute(db.select(Event).filter_by(id=event_id)).scalar_one() -/
def dbSelectEventScalarOne (s : Store) (event_id : Nat) : Except ApiError Event :=
  if s.failing then .error (.sqlalchemyError "OperationalError")
  else
    match eventsWithId s.events event_id with
    | [] => .error (.noResultFound "No row was found when one was required")
    | [e] => .ok e
    | _ => .error (.sqlalchemyError "MultipleResultsFound")

/-- db.select(Event).filter_by(event_id=event_id), as written in
event_update in routes.py.  Modelled from the spec: the Event entity's key
attribute is `id` (models.py is not under src/; the spec says "id (integer,
generated)" and the other event handlers filter by `id`), so the entity has
no `event_id` attribute and SQLAlchemy raises InvalidRequestError while
building the statement, whatever the store contents. -/
def dbSelectEventByWrongAttr (_s : Store) : Except ApiError (Option Event) :=
  .error (.sqlalchemyError
    "InvalidRequestError: Entity namespace for Event has no property event_id")

/-- Boolean no-duplicates check on a list of key values. -/
def nodupKeys : List (Option String) → Bool
  | [] => true
  | k :: ks => !(ks.any (fun x => decide (x = k))) && nodupKeys ks

/-- Modelled from the spec: the Region table constraints (models.py is not
under src/).  NOC is the primary key ("primary key NOC"; "Invariant: NOC is
unique"), so a committed table must have every NOC present and no two rows
sharing one. -/
def regionsOK (rs : List Region) : Bool :=
  rs.all (fun r => r.NOC.isSome) && nodupKeys (rs.map Region.NOC)

/-- db.session.commit() for the regions table: on a failing store the
commit raises OperationalError; a constraint violation raises
IntegrityError; both are SQLAlchemyErrors with no registered handler. -/
def commitRegions (failing : Bool) (rs : List Region) :
    Except ApiError (List Region) :=
  if failing then .error (.sqlalchemyError "OperationalError")
  else if regionsOK rs then .ok rs
  else .error (.sqlalchemyError "IntegrityError")

/-- Modelled from the spec: RegionSchema.load with no instance (schemas.py
is not under src/).  Load mode (a) of the schema layer: create-new.  NOC
and region are required (the POST example supplies both; notes is an
optional attribute); a missing required field is a ValidationError naming
the field. -/
def regionLoadNew (p : RegionPayload) : Except ApiError Region :=
  match p.NOC, p.region with
  | some noc, some reg => .ok { NOC := some noc, region := some reg, notes := p.notes }
  | none, some _ =>
      .error (.validationError [("NOC", ["Missing data for required field."])])
  | some _, none =>
      .error (.validationError [("region", ["Missing data for required field."])])
  | none, none =>
      .error (.validationError
        [("NOC", ["Missing data for required field."]),
         ("region", ["Missing data for required field."])])

/-- Modelled from the spec: RegionSchema.load with an existing instance and
no partial flag (schemas.py is not under src/).  Load mode (b) of the
schema layer: full replace — "if the region exists, full-replace its fields
from the body"; "fields omitted from the payload must become
absent/defaulted, not retained from the prior version". -/
def regionLoadFull (_inst : Region) (p : RegionPayload) : Except ApiError Region :=
  regionLoadNew p

/-- Applies the fields present in the payload to an existing instance and
leaves the other fields untouched. -/
def applyPatchFields (inst : Region) (p : RegionPayload) : Region :=
  { NOC := match p.NOC with | some v => some v | none => inst.NOC
    region := match p.region with | some v => some v | none => inst.region
    notes := match p.notes with | some v => some v | none => inst.notes }

/-- Modelled from the spec: RegionSchema.load with partial set (schemas.py
is not under src/).  Load mode (c) of the schema layer: "only supplied
fields validated and applied"; with no instance ("partial load against a
null target") it builds a brand-new instance from the supplied fields
alone, no field being required. -/
def regionLoadPatch : Option Region → RegionPayload → Region
  | some inst, p => applyPatchFields inst p
  | none, p => { NOC := p.NOC, region := p.region, notes := p.notes }

/-- Modelled from the spec: EventSchema.load with no instance (schemas.py
is not under src/).  The event name is required; the region reference is
optional at the schema level. -/
def eventLoadNew (p : EventPayload) : Except ApiError Event :=
  match p.name with
  | some nm => .ok { id := none, NOC := p.NOC, name := some nm }
  | none => .error (.validationError [("name", ["Missing data for required field."])])

/-- Modelled from the spec: EventSchema.load with partial set (schemas.py
is not under src/), mirroring the region partial load. -/
def eventLoadPatch : Option Event → EventPayload → Event
  | some inst, p =>
      { id := inst.id
        NOC := match p.NOC with | some v => some v | none => inst.NOC
        name := match p.name with | some v => some v | none => inst.name }
  | none, p => { id := none, NOC := p.NOC, name := p.name }

/-- The generated integer primary key the store assigns at insert. -/
def nextEventId (es : List Event) : Nat :=
  (es.filterMap Event.id).foldl Nat.max 0 + 1

/-- GET /regions (routes.py get_regions): the one read wrapped in
try/except SQLAlchemyError, which aborts with 404 "Region not found.". -/
def get_regions (s : Store) : Response :=
  match dbSelectAllRegions s with
  | .ok all_regions => { status := 200, body := .regionList all_regions }
  | .error _ => { status := 404, body := .errorObj "Region not found." }

/-- GET /regions/code (routes.py get_region): scalar_one with no local
handler, so any raised error goes to Flask dispatch. -/
def get_region (s : Store) (code : String) : Response :=
  match dbSelectRegionScalarOne s code with
  | .ok region => { status := 200, body := .regionObj region }
  | .error e => dispatchErr e

/-- GET /events (routes.py get_events): no local error handling. -/
def get_events (s : Store) : Response :=
  match dbSelectAllEvents s with
  | .ok all_events => { status := 200, body := .eventList all_events }
  | .error e => dispatchErr e

/-- GET /events/id (routes.py get_event): scalar_one, no local handler. -/
def get_event (s : Store) (event_id : Nat) : Response :=
  match dbSelectEventScalarOne s event_id with
  | .ok event => { status := 200, body := .eventObj event }
  | .error e => dispatchErr e

/-- POST /regions (routes.py add_region): load, add, commit, 201 with a
message naming the NOC. -/
def add_region (s : Store) (p : RegionPayload) : Response × Store :=
  match regionLoadNew p with
  | .error e => (dispatchErr e, s)
  | .ok region =>
    match commitRegions s.failing (s.regions ++ [region]) with
    | .ok rs =>
      let noc := optStr region.NOC
      ({ status := 201, body := .message ("Region added with NOC= " ++ noc) },
       { s with regions := rs })
    | .error e => (dispatchErr e, s)

/-- POST /events (routes.py add_event): load, add, commit (the store
assigns the id), 201 with a message naming the id. -/
def add_event (s : Store) (p : EventPayload) : Response × Store :=
  match eventLoadNew p with
  | .error e => (dispatchErr e, s)
  | .ok event =>
    if s.failing then (dispatchErr (.sqlalchemyError "OperationalError"), s)
    else
      let i := nextEventId s.events
      ({ status := 201, body := .message ("Event added with id= " ++ toString i) },
       { s with events := s.events ++ [{ event with id := some i }] })

/-- DELETE /regions/noc_code (routes.py delete_region): scalar_one, delete,
commit; an unknown code raises NoResultFound into Flask dispatch. -/
def delete_region (s : Store) (noc_code : String) : Response × Store :=
  match dbSelectRegionScalarOne s noc_code with
  | .error e => (dispatchErr e, s)
  | .ok _ =>
    ({ status := 200, body := .message ("Region " ++ noc_code ++ " deleted") },
     { s with regions := s.regions.filter (fun x => !(decide (x.NOC = some noc_code))) })

/-- DELETE /events/event_id (routes.py delete_event). -/
def delete_event (s : Store) (event_id : Nat) : Response × Store :=
  match dbSelectEventScalarOne s event_id with
  | .error e => (dispatchErr e, s)
  | .ok _ =>
    ({ status := 200, body := .message ("Event " ++ toString event_id ++ " deleted") },
     { s with events := s.events.filter (fun x => !(decide (x.id = some event_id))) })

/-- PATCH /events/event_id (routes.py event_update): the lookup filters by
the nonexistent attribute event_id (dbSelectEventByWrongAttr), so the
handler raises before reaching the load; the remaining lines (load partial
into the instance, add, commit, re-fetch — again by the wrong attribute —
and return the updated event with 200) are translated for fidelity but are
unreachable. -/
def event_update (s : Store) (event_id : Nat) (p : EventPayload) : Response × Store :=
  match dbSelectEventByWrongAttr s with
  | .error e => (dispatchErr e, s)
  | .ok existing_event =>
    let event_updated := eventLoadPatch existing_event p
    let events1 :=
      match existing_event with
      | some old => s.events.map (fun x => if x.id = old.id then event_updated else x)
      | none => s.events ++ [{ event_updated with id := some (nextEventId s.events) }]
    let s1 : Store := { s with events := events1 }
    match dbSelectEventByWrongAttr s1 with
    | .error e => (dispatchErr e, s1)
    | .ok updated_event =>
      match updated_event with
      | some ev => ({ status := 200, body := .eventObj ev }, s1)
      | none => ({ status := 200, body := .eventObj { id := none, NOC := none, name := none } }, s1)

/-- PUT and PATCH /regions/noc_code (routes.py region_update).
PATCH: scalar_one_or_none, partial load into the (possibly absent)
instance, add, commit, 200 "Region code updated".
PUT with an existing region: full load into the instance (ValidationError
caught locally into 400), add, commit, 200 "Region code updated".
PUT with no existing region: create-new load (ValidationError caught
locally into 400) and then return the success message at once — the code
returns before the add and commit lines, so nothing is persisted. -/
def region_update (s : Store) (m : Method) (noc_code : String) (p : RegionPayload) :
    Response × Store :=
  match dbSelectRegionScalarOneOrNone s noc_code with
  | .error e => (dispatchErr e, s)
  | .ok existing_region =>
    match m with
    | .PATCH =>
      let r := regionLoadPatch existing_region p
      let regions1 :=
        match existing_region with
        | some _ => s.regions.map (fun x => if x.NOC = some noc_code then r else x)
        | none => s.regions ++ [r]
      match commitRegions s.failing regions1 with
      | .ok rs =>
        ({ status := 200, body := .message ("Region " ++ noc_code ++ " updated") },
         { s with regions := rs })
      | .error e => (dispatchErr e, s)
    | .PUT =>
      match existing_region with
      | some inst =>
        match regionLoadFull inst p with
        | .error e => (dispatchErr e, s)
        | .ok r =>
          let regions1 := s.regions.map (fun x => if x.NOC = some noc_code then r else x)
          match commitRegions s.failing regions1 with
          | .ok rs =>
            ({ status := 200, body := .message ("Region " ++ noc_code ++ " updated") },
             { s with regions := rs })
          | .error e => (dispatchErr e, s)
      | none =>
        match regionLoadNew p with
        | .ok _ =>
          ({ status := 200, body := .message ("Region added with NOC= " ++ noc_code) }, s)
        | .error e => (dispatchErr e, s)

theorem bool_and_elim {a b : Bool} (h : (a && b) = true) : a = true ∧ b = true := by
  cases a <;> cases b <;> simp_all

theorem bool_and_intro {a b : Bool} (ha : a = true) (hb : b = true) : (a && b) = true := by
  rw [ha, hb]; rfl

/-- A code matching no stored region filters to the empty row list. -/
theorem regionsWithNOC_nil (rs : List Region) (code : String)
    (h : ∀ r ∈ rs, r.NOC ≠ some code) : regionsWithNOC rs code = [] := by
  induction rs with
  | nil => rfl
  | cons a t ih =>
    have ha : ¬ a.NOC = some code := h a (List.mem_cons_self a t)
    have ht : ∀ r ∈ t, r.NOC ≠ some code := fun r hr => h r (List.mem_cons_of_mem a hr)
    simp only [regionsWithNOC, List.filter_cons] at ih ⊢
    rw [decide_eq_false ha]
    exact ih ht

/-- Under the unique-NOC invariant, a stored region's code filters to
exactly that row. -/
theorem regionsWithNOC_single (rs : List Region) (code : String) (R : Region)
    (hnd : nodupKeys (rs.map Region.NOC) = true)
    (hmem : R ∈ rs) (hR : R.NOC = some code) :
    regionsWithNOC rs code = [R] := by
  induction rs with
  | nil => cases hmem
  | cons a t ih =>
    rw [List.map_cons, nodupKeys] at hnd
    obtain ⟨h1, h2⟩ := bool_and_elim hnd
    have h1' : (t.map Region.NOC).any (fun x => decide (x = a.NOC)) = false := by
      cases hx : (t.map Region.NOC).any (fun x => decide (x = a.NOC)) with
      | false => rfl
      | true => rw [hx] at h1; exact absurd h1 (by decide)
    have hnota : ∀ y ∈ t, y.NOC ≠ a.NOC := by
      intro y hy hcontra
      have hin : (t.map Region.NOC).any (fun x => decide (x = a.NOC)) = true := by
        rw [List.any_eq_true]
        exact ⟨y.NOC, List.mem_map_of_mem Region.NOC hy, by rw [hcontra]; exact decide_eq_true rfl⟩
      rw [hin] at h1'
      exact absurd h1' (by decide)
    rcases List.mem_cons.mp hmem with hRa | hRt
    · subst hRa
      have ht : regionsWithNOC t code = [] := by
        apply regionsWithNOC_nil
        intro y hy hcon
        exact hnota y hy (hcon.trans hR.symm)
      simp only [regionsWithNOC, List.filter_cons] at ht ⊢
      rw [decide_eq_true hR, ht]
      rfl
    · have hane : ¬ a.NOC = some code := by
        intro hae
        exact hnota R hRt (hR.trans hae.symm)
      simp only [regionsWithNOC, List.filter_cons] at ih ⊢
      rw [decide_eq_false hane]
      exact ih h2 hRt

/-- Replacing the rows keyed by a code with a row carrying that same code
leaves the key column unchanged. -/
theorem nocMap_replace (rs : List Region) (code : String) (r : Region)
    (hr : r.NOC = some code) :
    (rs.map (fun x => if x.NOC = some code then r else x)).map Region.NOC
      = rs.map Region.NOC := by
  rw [List.map_map]
  apply List.map_congr_left
  intro a _
  simp only [Function.comp_apply]
  by_cases h : a.NOC = some code
  · rw [if_pos h, hr, h]
  · rw [if_neg h]

/-- The not-NULL half of the table constraint only looks at the key column. -/
theorem all_isSome_eq (rs : List Region) :
    (rs.all fun x => x.NOC.isSome) = (rs.map Region.NOC).all Option.isSome := by
  induction rs with
  | nil => rfl
  | cons a t ih => simp only [List.all_cons, List.map_cons, ih]

/-- The table constraint is a function of the key column alone. -/
theorem regionsOK_eq (rs : List Region) :
    regionsOK rs = ((rs.map Region.NOC).all Option.isSome && nodupKeys (rs.map Region.NOC)) := by
  rw [regionsOK, all_isSome_eq]

/-- Replacing the rows keyed by a code with a row carrying that same code
preserves the table constraint. -/
theorem regionsOK_replace (rs : List Region) (code : String) (r : Region)
    (hr : r.NOC = some code) :
    regionsOK (rs.map (fun x => if x.NOC = some code then r else x)) = regionsOK rs := by
  rw [regionsOK_eq, regionsOK_eq, nocMap_replace rs code r hr]

/-- Appending a fresh key keeps the no-duplicates check true. -/
theorem nodupKeys_append_fresh (ks : List (Option String)) (k : Option String)
    (hnd : nodupKeys ks = true) (hfresh : ∀ x ∈ ks, x ≠ k) :
    nodupKeys (ks ++ [k]) = true := by
  induction ks with
  | nil => rfl
  | cons a t ih =>
    rw [nodupKeys] at hnd
    obtain ⟨h1, h2⟩ := bool_and_elim hnd
    have h1' : (t.any fun x => decide (x = a)) = false := by
      cases hx : (t.any fun x => decide (x = a)) with
      | false => rfl
      | true => rw [hx] at h1; exact absurd h1 (by decide)
    have hka : ¬ k = a := fun h => hfresh a (List.mem_cons_self a t) h.symm
    rw [List.cons_append, nodupKeys]
    apply bool_and_intro
    · rw [List.any_append, h1']
      simp only [List.any_cons, List.any_nil, decide_eq_false hka]
      rfl
    · exact ih h2 (fun x hx => hfresh x (List.mem_cons_of_mem a hx))

/-- Appending a key already present makes the no-duplicates check false. -/
theorem nodupKeys_append_dup (ks : List (Option String)) (k : Option String)
    (hk : k ∈ ks) : nodupKeys (ks ++ [k]) = false := by
  induction ks with
  | nil => cases hk
  | cons a t ih =>
    rw [List.cons_append, nodupKeys]
    rcases List.mem_cons.mp hk with h | h
    · subst h
      have hany : ((t ++ [k]).any fun x => decide (x = k)) = true := by
        rw [List.any_eq_true]
        exact ⟨k, List.mem_append_right t (List.mem_singleton.mpr rfl), decide_eq_true rfl⟩
      rw [hany]
      rfl
    · rw [ih h, Bool.and_false]

/-- C1: refuted on the code — for a code with no region and a valid payload,
PUT /regions/GBR answers with a success status yet the store is unchanged
(the handler returns before add and commit), and the subsequent
GET /regions/GBR answers 404 instead of the submitted data. -/
theorem c1_put_create_not_persisted :
    (region_update { regions := [], events := [], failing := false } .PUT "GBR"
      { NOC := some "GBR", region := some "Great Britain", notes := none }).1 =
      { status := 200, body := .message "Region added with NOC= GBR" } ∧
    (region_update { regions := [], events := [], failing := false } .PUT "GBR"
      { NOC := some "GBR", region := some "Great Britain", notes := none }).2 =
      { regions := [], events := [], failing := false } ∧
    (get_region
      (region_update { regions := [], events := [], failing := false } .PUT "GBR"
        { NOC := some "GBR", region := some "Great Britain", notes := none }).2
      "GBR").status = 404 := by
  decide

/-- C2: refuted on the code — PATCH /events/1 with an existing event of id 1
and a valid partial payload answers 500 (the lookup filters by the
nonexistent attribute event_id) and leaves the store unchanged, instead of
applying the update and answering 200 with the updated event. -/
theorem c2_event_patch_raises :
    (event_update
      { regions := [], events := [{ id := some 1, NOC := some "GBR", name := some "London 2012" }],
        failing := false } 1 { NOC := none, name := some "London" }).1 =
      { status := 500, body := .internalError } ∧
    (event_update
      { regions := [], events := [{ id := some 1, NOC := some "GBR", name := some "London 2012" }],
        failing := false } 1 { NOC := none, name := some "London" }).2 =
      { regions := [], events := [{ id := some 1, NOC := some "GBR", name := some "London 2012" }],
        failing := false } := by
  decide

/-- C3: refuted on the code — PATCH /regions/GBR with no stored GBR region
and a payload passing partial validation answers 200 "Region GBR updated"
and inserts a brand-new row, instead of the NotFound (404) the claim
requires. -/
theorem c3_patch_absent_proceeds :
    (region_update { regions := [], events := [], failing := false } .PATCH "GBR"
      { NOC := some "GBR", region := some "Great Britain", notes := none }).1 =
      { status := 200, body := .message "Region GBR updated" } ∧
    (region_update { regions := [], events := [], failing := false } .PATCH "GBR"
      { NOC := some "GBR", region := some "Great Britain", notes := none }).2.regions =
      [{ NOC := some "GBR", region := some "Great Britain", notes := none }] := by
  decide

/-- C4: refuted on the code — the PUT-create path is a mutating call that
answers with a success response without committing anything: on a store
holding only FRA, PUT /regions/ESP with a valid body answers 200 yet the
store after the call still holds only FRA. -/
theorem c4_put_create_skips_commit :
    (region_update
      { regions := [{ NOC := some "FRA", region := some "France", notes := none }],
        events := [], failing := false } .PUT "ESP"
      { NOC := some "ESP", region := some "Spain", notes := none }).1.status = 200 ∧
    (region_update
      { regions := [{ NOC := some "FRA", region := some "France", notes := none }],
        events := [], failing := false } .PUT "ESP"
      { NOC := some "ESP", region := some "Spain", notes := none }).2 =
      { regions := [{ NOC := some "FRA", region := some "France", notes := none }],
        events := [], failing := false } := by
  decide

/-- C6 counterexample: a persistence-layer failure during GET /events is
answered with 500, not 404 — only GET /regions translates arbitrary
storage failures into 404. -/
theorem c6_read_failure_counterexample :
    (get_events { regions := [], events := [], failing := true }).status = 500 ∧
    ¬ (get_events { regions := [], events := [], failing := true }).status = 404 := by
  decide

/-- C9 counterexample: the empty payload passes partial validation, yet
PATCH /regions/GBR on a store without GBR answers 500 (the commit of the
new row with a NULL primary key raises IntegrityError) and inserts
nothing, rather than answering 200 and inserting a row. -/
theorem c9_empty_payload_500 :
    (region_update { regions := [], events := [], failing := false } .PATCH "GBR"
      { NOC := none, region := none, notes := none }).1 =
      { status := 500, body := .internalError } ∧
    (region_update { regions := [], events := [], failing := false } .PATCH "GBR"
      { NOC := none, region := none, notes := none }).2 =
      { regions := [], events := [], failing := false } := by
  decide

/-- C8: for every code absent from the store, GET /regions/code and
DELETE /regions/code both answer 404 with a JSON body of the form
error: description (the NoResultFound message), and the delete leaves the
store unchanged. -/
theorem c8_unknown_code_404 (s : Store) (code : String)
    (hfail : s.failing = false)
    (habs : ∀ r ∈ s.regions, r.NOC ≠ some code) :
    get_region s code =
      { status := 404, body := .errorObj "No row was found when one was required" } ∧
    (delete_region s code).1 =
      { status := 404, body := .errorObj "No row was found when one was required" } ∧
    (delete_region s code).2 = s := by
  have hnil := regionsWithNOC_nil s.regions code habs
  have hsel : dbSelectRegionScalarOne s code =
      .error (.noResultFound "No row was found when one was required") := by
    unfold dbSelectRegionScalarOne
    rw [hfail, hnil]
    rfl
  refine ⟨?_, ?_, ?_⟩ <;> simp only [get_region, delete_region, hsel, dispatchErr]

/-- C8 witness: a concrete store holding only FRA, asked about GBR. -/
theorem c8_unknown_code_404_witness :
    (∀ r ∈ [({ NOC := some "FRA", region := some "France", notes := none } : Region)],
        r.NOC ≠ some "GBR") ∧
    get_region
      { regions := [{ NOC := some "FRA", region := some "France", notes := none }],
        events := [], failing := false } "GBR" =
      { status := 404, body := .errorObj "No row was found when one was required" } ∧
    (delete_region
      { regions := [{ NOC := some "FRA", region := some "France", notes := none }],
        events := [], failing := false } "GBR").1 =
      { status := 404, body := .errorObj "No row was found when one was required" } ∧
    (delete_region
      { regions := [{ NOC := some "FRA", region := some "France", notes := none }],
        events := [], failing := false } "GBR").2 =
      { regions := [{ NOC := some "FRA", region := some "France", notes := none }],
        events := [], failing := false } :=
  ⟨by decide,
   c8_unknown_code_404
     { regions := [{ NOC := some "FRA", region := some "France", notes := none }],
       events := [], failing := false } "GBR" rfl (by decide)⟩

/-- C6 amended: when the persistence layer fails during a read, only
GET /regions answers 404; GET /regions/code, GET /events and GET /events/id
let the failure escape with no matching handler and answer 500. -/
theorem c6_read_failure_amended (s : Store) (code : String) (event_id : Nat)
    (hfail : s.failing = true) :
    (get_regions s).status = 404 ∧
    (get_region s code).status = 500 ∧
    (get_events s).status = 500 ∧
    (get_event s event_id).status = 500 := by
  refine ⟨?_, ?_, ?_, ?_⟩ <;>
    simp only [get_regions, get_region, get_events, get_event, dbSelectAllRegions,
      dbSelectRegionScalarOne, dbSelectAllEvents, dbSelectEventScalarOne, hfail,
      if_true, dispatchErr]

/-- C6 amended witness: a failing store probed through all four reads. -/
theorem c6_read_failure_amended_witness :
    (get_regions { regions := [], events := [], failing := true }).status = 404 ∧
    (get_region { regions := [], events := [], failing := true } "GBR").status = 500 ∧
    (get_events { regions := [], events := [], failing := true }).status = 500 ∧
    (get_event { regions := [], events := [], failing := true } 1).status = 500 :=
  c6_read_failure_amended { regions := [], events := [], failing := true } "GBR" 1 rfl

/-- C10: a POST /regions body that passes schema validation but repeats a
stored NOC makes the commit raise an IntegrityError, which matches neither
registered error handler, so the response is the unhandled 500 and not a
400 or 404; the store is left unchanged. -/
theorem c10_duplicate_noc_unhandled (s : Store) (p : RegionPayload) (R : Region) (v : String)
    (hfail : s.failing = false)
    (hmem : R ∈ s.regions) (hRv : R.NOC = some v)
    (hpn : p.NOC = some v) (hpr : ∃ w, p.region = some w) :
    (add_region s p).1 = { status := 500, body := .internalError } ∧
    (add_region s p).2 = s := by
  obtain ⟨w, hw⟩ := hpr
  have hload : regionLoadNew p =
      .ok { NOC := some v, region := some w, notes := p.notes } := by
    unfold regionLoadNew
    rw [hpn, hw]
  have hdup : (some v) ∈ s.regions.map Region.NOC := by
    have h := List.mem_map_of_mem Region.NOC hmem
    rw [hRv] at h
    exact h
  have hbad : regionsOK
      (s.regions ++ [{ NOC := some v, region := some w, notes := p.notes }]) = false := by
    rw [regionsOK_eq, List.map_append]
    simp only [List.map_cons, List.map_nil]
    rw [nodupKeys_append_dup _ _ hdup, Bool.and_false]
  have hcommit : commitRegions s.failing
      (s.regions ++ [{ NOC := some v, region := some w, notes := p.notes }]) =
      .error (.sqlalchemyError "IntegrityError") := by
    unfold commitRegions
    rw [hfail, hbad]
    rfl
  refine ⟨?_, ?_⟩ <;> simp only [add_region, hload, hcommit, dispatchErr]

/-- C10 witness: re-posting the NOC GBR over a store already holding it. -/
theorem c10_duplicate_noc_unhandled_witness :
    ({ NOC := some "GBR", region := some "Great Britain", notes := none } : Region) ∈
      [({ NOC := some "GBR", region := some "Great Britain", notes := none } : Region)] ∧
    (add_region
      { regions := [{ NOC := some "GBR", region := some "Great Britain", notes := none }],
        events := [], failing := false }
      { NOC := some "GBR", region := some "Britain", notes := none }).1 =
      { status := 500, body := .internalError } ∧
    (add_region
      { regions := [{ NOC := some "GBR", region := some "Great Britain", notes := none }],
        events := [], failing := false }
      { NOC := some "GBR", region := some "Britain", notes := none }).2 =
      { regions := [{ NOC := some "GBR", region := some "Great Britain", notes := none }],
        events := [], failing := false } :=
  ⟨by decide,
   c10_duplicate_noc_unhandled
     { regions := [{ NOC := some "GBR", region := some "Great Britain", notes := none }],
       events := [], failing := false }
     { NOC := some "GBR", region := some "Britain", notes := none }
     { NOC := some "GBR", region := some "Great Britain", notes := none }
     "GBR" rfl (by decide) rfl rfl ⟨"Britain", rfl⟩⟩

/-- C9 amended: PATCH /regions/code on a code with no stored region, with a
payload that passes partial validation and supplies a NOC not stored
elsewhere, proceeds as a partial load against a null target: it answers
200 "Region code updated" and inserts a brand-new row built from the
payload fields alone. -/
theorem c9_patch_absent_inserts (s : Store) (code : String) (p : RegionPayload) (v : String)
    (hfail : s.failing = false)
    (hok : regionsOK s.regions = true)
    (habs : ∀ r ∈ s.regions, r.NOC ≠ some code)
    (hpn : p.NOC = some v)
    (hfresh : ∀ r ∈ s.regions, r.NOC ≠ some v) :
    (region_update s .PATCH code p).1 =
      { status := 200, body := .message ("Region " ++ code ++ " updated") } ∧
    (region_update s .PATCH code p).2.regions =
      s.regions ++ [{ NOC := p.NOC, region := p.region, notes := p.notes }] := by
  have hnil := regionsWithNOC_nil s.regions code habs
  have hsel : dbSelectRegionScalarOneOrNone s code = .ok none := by
    unfold dbSelectRegionScalarOneOrNone
    rw [hfail, hnil]
    rfl
  have hok' := hok
  rw [regionsOK_eq] at hok'
  obtain ⟨hall, hnd⟩ := bool_and_elim hok'
  have hfreshkeys : ∀ x ∈ s.regions.map Region.NOC, x ≠ some v := by
    intro x hx
    obtain ⟨y, hy, rfl⟩ := List.mem_map.mp hx
    exact hfresh y hy
  have hndnew : nodupKeys
      ((s.regions ++ [({ NOC := p.NOC, region := p.region, notes := p.notes } : Region)]).map
        Region.NOC) = true := by
    rw [List.map_append]
    simp only [List.map_cons, List.map_nil]
    rw [hpn]
    exact nodupKeys_append_fresh _ _ hnd hfreshkeys
  have hallnew : ((s.regions ++ [({ NOC := p.NOC, region := p.region, notes := p.notes } : Region)]).map
      Region.NOC).all Option.isSome = true := by
    rw [List.map_append, List.all_append]
    apply bool_and_intro hall
    simp only [List.map_cons, List.map_nil, List.all_cons, List.all_nil]
    rw [hpn]
    rfl
  have hoknew : regionsOK
      (s.regions ++ [{ NOC := p.NOC, region := p.region, notes := p.notes }]) = true := by
    rw [regionsOK_eq]
    exact bool_and_intro hallnew hndnew
  have hcommit : commitRegions s.failing
      (s.regions ++ [{ NOC := p.NOC, region := p.region, notes := p.notes }]) =
      .ok (s.regions ++ [{ NOC := p.NOC, region := p.region, notes := p.notes }]) := by
    unfold commitRegions
    rw [hfail, hoknew]
    rfl
  refine ⟨?_, ?_⟩ <;> simp only [region_update, hsel, regionLoadPatch, hcommit]

/-- C9 amended witness: PATCH of a fresh code ESP over a store holding FRA,
with a payload supplying only the NOC. -/
theorem c9_patch_absent_inserts_witness :
    regionsOK [{ NOC := some "FRA", region := some "France", notes := none }] = true ∧
    (region_update
      { regions := [{ NOC := some "FRA", region := some "France", notes := none }],
        events := [], failing := false } .PATCH "ESP"
      { NOC := some "ESP", region := none, notes := none }).1 =
      { status := 200, body := .message "Region ESP updated" } ∧
    (region_update
      { regions := [{ NOC := some "FRA", region := some "France", notes := none }],
        events := [], failing := false } .PATCH "ESP"
      { NOC := some "ESP", region := none, notes := none }).2.regions =
      [{ NOC := some "FRA", region := some "France", notes := none },
       { NOC := some "ESP", region := none, notes := none }] :=
  ⟨by decide,
   c9_patch_absent_inserts
     { regions := [{ NOC := some "FRA", region := some "France", notes := none }],
       events := [], failing := false }
     "ESP" { NOC := some "ESP", region := none, notes := none } "ESP"
     rfl (by decide) (by decide) rfl (by decide)⟩

/-- C5: for every stored region and every valid PUT body carrying the path
code, PUT /regions/code full-replaces the stored row with the loaded body:
the row becomes exactly the payload fields, so an omitted notes field ends
up defaulted (none), not retained from the prior version. -/
theorem c5_put_full_replace (s : Store) (code : String) (R : Region) (p : RegionPayload)
    (hfail : s.failing = false)
    (hok : regionsOK s.regions = true)
    (hmem : R ∈ s.regions) (hR : R.NOC = some code)
    (hpn : p.NOC = some code) (hpr : ∃ w, p.region = some w) :
    (region_update s .PUT code p).1 =
      { status := 200, body := .message ("Region " ++ code ++ " updated") } ∧
    (region_update s .PUT code p).2.regions =
      s.regions.map (fun x => if x.NOC = some code then
        { NOC := some code, region := p.region, notes := p.notes } else x) := by
  obtain ⟨w, hw⟩ := hpr
  have hok' := hok
  rw [regionsOK_eq] at hok'
  obtain ⟨hall, hnd⟩ := bool_and_elim hok'
  have hone := regionsWithNOC_single s.regions code R hnd hmem hR
  have hsel : dbSelectRegionScalarOneOrNone s code = .ok (some R) := by
    unfold dbSelectRegionScalarOneOrNone
    rw [hfail, hone]
    rfl
  have hload : regionLoadFull R p =
      .ok { NOC := some code, region := some w, notes := p.notes } := by
    unfold regionLoadFull regionLoadNew
    rw [hpn, hw]
  have hoknew : regionsOK (s.regions.map (fun x => if x.NOC = some code then
      { NOC := some code, region := some w, notes := p.notes } else x)) = true := by
    rw [regionsOK_replace _ code _ rfl]
    exact hok
  have hcommit : commitRegions s.failing (s.regions.map (fun x => if x.NOC = some code then
      { NOC := some code, region := some w, notes := p.notes } else x)) =
      .ok (s.regions.map (fun x => if x.NOC = some code then
        { NOC := some code, region := some w, notes := p.notes } else x)) := by
    unfold commitRegions
    rw [hfail, hoknew]
    rfl
  refine ⟨?_, ?_⟩ <;> simp only [region_update, hsel, hload, hcommit, hw]

/-- C5 witness: PUT of GBR with notes omitted over a stored GBR region that
had notes; the stored notes become none. -/
theorem c5_put_full_replace_witness :
    regionsOK [{ NOC := some "GBR", region := some "Great Britain", notes := some "old notes" }] =
      true ∧
    (region_update
      { regions := [{ NOC := some "GBR", region := some "Great Britain", notes := some "old notes" }], events := [], failing := false } .PUT "GBR"
      { NOC := some "GBR", region := some "Great Britain and NI", notes := none }).1 =
      { status := 200, body := .message "Region GBR updated" } ∧
    (region_update
      { regions := [{ NOC := some "GBR", region := some "Great Britain", notes := some "old notes" }], events := [], failing := false } .PUT "GBR"
      { NOC := some "GBR", region := some "Great Britain and NI", notes := none }).2.regions =
      [{ NOC := some "GBR", region := some "Great Britain and NI", notes := none }] :=
  ⟨by decide,
   by
    have h := c5_put_full_replace
      { regions := [{ NOC := some "GBR", region := some "Great Britain", notes := some "old notes" }], events := [], failing := false }
      "GBR" { NOC := some "GBR", region := some "Great Britain", notes := some "old notes" }
      { NOC := some "GBR", region := some "Great Britain and NI", notes := none }
      rfl (by decide) (by decide) rfl rfl ⟨"Great Britain and NI", rfl⟩
    exact ⟨h.1, by rw [h.2]; decide⟩⟩

/-- C7: for every stored region R and every partial payload that keeps the
key on the path code, PATCH /regions/code replaces R by R with exactly the
supplied fields changed and touches no other row, and the subsequent
GET /regions/code returns that patched region. -/
theorem c7_patch_frame (s : Store) (code : String) (R : Region) (p : RegionPayload)
    (hfail : s.failing = false)
    (hok : regionsOK s.regions = true)
    (hmem : R ∈ s.regions) (hR : R.NOC = some code)
    (hkey : (applyPatchFields R p).NOC = some code) :
    (region_update s .PATCH code p).1 =
      { status := 200, body := .message ("Region " ++ code ++ " updated") } ∧
    (region_update s .PATCH code p).2.regions =
      s.regions.map (fun x => if x.NOC = some code then applyPatchFields R p else x) ∧
    get_region (region_update s .PATCH code p).2 code =
      { status := 200, body := .regionObj (applyPatchFields R p) } := by
  have hok' := hok
  rw [regionsOK_eq] at hok'
  obtain ⟨hall, hnd⟩ := bool_and_elim hok'
  have hone := regionsWithNOC_single s.regions code R hnd hmem hR
  have hsel : dbSelectRegionScalarOneOrNone s code = .ok (some R) := by
    unfold dbSelectRegionScalarOneOrNone
    rw [hfail, hone]
    rfl
  have hoknew : regionsOK (s.regions.map (fun x => if x.NOC = some code then
      applyPatchFields R p else x)) = true := by
    rw [regionsOK_replace _ code _ hkey]
    exact hok
  have hcommit : commitRegions s.failing (s.regions.map (fun x => if x.NOC = some code then
      applyPatchFields R p else x)) =
      .ok (s.regions.map (fun x => if x.NOC = some code then applyPatchFields R p else x)) := by
    unfold commitRegions
    rw [hfail, hoknew]
    rfl
  have hstep : region_update s .PATCH code p =
      ({ status := 200, body := .message ("Region " ++ code ++ " updated") },
       { s with regions := s.regions.map (fun x => if x.NOC = some code then
          applyPatchFields R p else x) }) := by
    simp only [region_update, hsel, regionLoadPatch, hcommit]
  have hnd2 : nodupKeys ((s.regions.map (fun x => if x.NOC = some code then
      applyPatchFields R p else x)).map Region.NOC) = true := by
    rw [nocMap_replace _ code _ hkey]
    exact hnd
  have hmem2 : applyPatchFields R p ∈ s.regions.map (fun x => if x.NOC = some code then
      applyPatchFields R p else x) := by
    have h := List.mem_map_of_mem (fun x => if x.NOC = some code then
      applyPatchFields R p else x) hmem
    have h2 : (fun x => if x.NOC = some code then applyPatchFields R p else x) R =
        applyPatchFields R p := by
      simp only [if_pos hR]
    rw [h2] at h
    exact h
  have hone2 := regionsWithNOC_single _ code _ hnd2 hmem2 hkey
  have hget : get_region { s with regions := s.regions.map (fun x => if x.NOC = some code then
      applyPatchFields R p else x) } code =
      { status := 200, body := .regionObj (applyPatchFields R p) } := by
    simp only [get_region, dbSelectRegionScalarOne]
    rw [hfail, hone2]
    rfl
  exact ⟨by rw [hstep], by rw [hstep], by rw [hstep]; exact hget⟩

/-- C7 witness: PATCH of the notes field alone over a stored GBR region;
NOC and region name are untouched and the GET returns the patched row. -/
theorem c7_patch_frame_witness :
    regionsOK [{ NOC := some "GBR", region := some "Great Britain", notes := some "old" }] =
      true ∧
    (region_update
      { regions := [{ NOC := some "GBR", region := some "Great Britain", notes := some "old" }],
        events := [], failing := false } .PATCH "GBR"
      { NOC := none, region := none, notes := some "new" }).1 =
      { status := 200, body := .message "Region GBR updated" } ∧
    (region_update
      { regions := [{ NOC := some "GBR", region := some "Great Britain", notes := some "old" }],
        events := [], failing := false } .PATCH "GBR"
      { NOC := none, region := none, notes := some "new" }).2.regions =
      [{ NOC := some "GBR", region := some "Great Britain", notes := some "new" }] ∧
    get_region
      (region_update
        { regions := [{ NOC := some "GBR", region := some "Great Britain", notes := some "old" }], events := [], failing := false } .PATCH "GBR"
        { NOC := none, region := none, notes := some "new" }).2 "GBR" =
      { status := 200,
        body := .regionObj { NOC := some "GBR", region := some "Great Britain", notes := some "new" } } :=
  ⟨by decide,
   by
    have h := c7_patch_frame
      { regions := [{ NOC := some "GBR", region := some "Great Britain", notes := some "old" }],
        events := [], failing := false }
      "GBR" { NOC := some "GBR", region := some "Great Britain", notes := some "old" }
      { NOC := none, region := none, notes := some "new" }
      rfl (by decide) (by decide) rfl rfl
    refine ⟨h.1, ?_, ?_⟩
    · rw [h.2.1]; decide
    · rw [h.2.2]; decide⟩

end Paralympics
